import Mathlib

/-!
Verification development for the localization pipeline of the
user-management service.

The Lean definitions below are shallow embeddings of the Python
source files:

* `app/utils/localization.py`  — `LocalizationManager` (`get_translation`,
  `is_supported_language`, `format_datetime`);
* `app/utils/i18n.py`          — module-level `SUPPORTED_LANGUAGES`,
  `DEFAULT_LANGUAGE`, `translate_api_message`;
* `app/middleware/localization_middleware.py` — `LocalizationMiddleware.dispatch`;
* `app/routers/language_routes.py` — `set_language_preference`;
* `app/routers/user_preferences_routes.py` — `update_language_preference`.

Python dictionaries are modelled as association lists (first binding
wins, as keys in a Python dict are unique); Python strings are Lean
`String`s; Python truthiness of a string is `s ≠ ""`, of a dict is
"non-empty list", of an `Option` is `isSome` (with the string inside
additionally non-empty where the source tests a `str` that may be `None`).
-/

namespace UserMgmt

/-- Left and right curly brace characters (used when modelling
Python format strings). -/
def lbrace : Char := '\x7b'

def rbrace : Char := '\x7d'

/-- `dictGet d k` models Python `d.get(k)` on a dict represented as an
association list: the value of the first binding of `k`, if any. -/
def dictGet {α : Type} : List (String × α) → String → Option α
  | [], _ => none
  | (k, v) :: rest, key => if k = key then some v else dictGet rest key

/-- `dictGet2 d k1 k2` models Python `d.get(k1, {}).get(k2)` for a
dict of dicts. -/
def dictGet2 (d : List (String × List (String × String))) (k1 k2 : String) :
    Option String :=
  match dictGet d k1 with
  | some inner => dictGet inner k2
  | none => none

/-- Python truthiness of an `Optional[str]`: present and non-empty. -/
def optTruthy : Option String → Bool
  | some s => s ≠ ""
  | none => false

/-!
## A model of CPython `str.format(**kwargs)`

`app/utils/localization.py` line 106 calls `translation.format(**kwargs)`
and catches only `KeyError`.  We model the exceptions `str.format` can
raise on the feature subset relevant here:

* a named field `\x7bname\x7d` whose name is not among the keyword
  arguments raises `KeyError`;
* an automatic (`\x7b\x7d`) or manually numbered (`\x7b0\x7d`) field raises
  `IndexError`, because the call site passes keyword arguments only —
  there is never a positional argument to substitute;
* an unmatched single brace raises `ValueError`.

Simplifications (documented, none of them affects the theorems below):
format specifications after `:` and conversions after `!` are parsed
(the field name stops there) but the value is inserted verbatim without
padding; attribute/index access inside a field name is treated as part
of the name, so it fails with `KeyError` rather than CPython's
`AttributeError`/`TypeError` — in both models the call site's
`except KeyError` does not, in general, catch it, but such field names do
not occur in the development's inputs.
-/

inductive PyFormatError where
  | keyError
  | indexError
  | valueError
  deriving DecidableEq, Repr

/-- The field name of a replacement field: everything before a `:`
(format spec) or `!` (conversion). -/
def fieldName (f : List Char) : List Char :=
  f.takeWhile (fun c => c ≠ ':' && c ≠ '!')

/-- A positional field: empty name or all-digit name. -/
def isPositionalField (name : List Char) : Bool :=
  name.all (fun c => c.isDigit)

/-- Prefix a string onto the success value of a format result. -/
def exceptPrepend (s : String) :
    Except PyFormatError String → Except PyFormatError String
  | .ok t => .ok (s ++ t)
  | .error e => .error e

/-- Core of the `str.format(**kwargs)` model, a scanner over the
template's characters.  `mode = none` is ordinary text; `mode = some acc`
is inside a replacement field whose content so far is `acc`.  On a
field's closing brace the field is substituted: positional fields fail
with `IndexError` (no positional arguments are ever passed at the
modelled call site), missing named keys with `KeyError`; a nested
opening brace, a stray closing brace, or an unterminated field is a
`ValueError`.  The `fuel` argument only makes the recursion structural:
every step consumes at least one character and exactly one unit of
fuel, so with `fuel = cs.length` the exhaustion branch is unreachable. -/
def pyFormatGo (ps : List (String × String)) :
    Nat → List Char → Option (List Char) → Except PyFormatError String
  | _, [], none => .ok ""
  | _, [], some _ => .error .valueError
  | 0, _ :: _, _ => .error .valueError
  | fuel + 1, c :: rest, none =>
    if c = lbrace then
      match rest with
      | c2 :: rest2 =>
        if c2 = lbrace then
          exceptPrepend lbrace.toString (pyFormatGo ps fuel rest2 none)
        else pyFormatGo ps fuel rest (some [])
      | [] => .error .valueError
    else if c = rbrace then
      match rest with
      | c2 :: rest2 =>
        if c2 = rbrace then
          exceptPrepend rbrace.toString (pyFormatGo ps fuel rest2 none)
        else .error .valueError
      | [] => .error .valueError
    else exceptPrepend c.toString (pyFormatGo ps fuel rest none)
  | fuel + 1, c :: rest, some acc =>
    if c = rbrace then
      if isPositionalField (fieldName acc) then .error .indexError
      else
        match dictGet ps (String.mk (fieldName acc)) with
        | some v => exceptPrepend v (pyFormatGo ps fuel rest none)
        | none => .error .keyError
    else if c = lbrace then .error .valueError
    else pyFormatGo ps fuel rest (some (acc ++ [c]))

/-- `pyFormat t kwargs` models Python `t.format(**kwargs)`. -/
def pyFormat (t : String) (ps : List (String × String)) :
    Except PyFormatError String :=
  pyFormatGo ps t.toList.length t.toList none

/-!
## `LocalizationManager` (`app/utils/localization.py`)

The manager's state after `__init__`/`_load_translations`:
`default_language`, the list `supported_languages`, and the
translations table `language code ↦ (key ↦ template)`.  The file
contents loaded from disk are left abstract — theorems quantify over
the table.
-/

structure LocalizationManager where
  default_language : String
  supported_languages : List String
  translations : List (String × List (String × String))
  deriving Repr

/-- `is_supported_language` (localization.py lines 113-115):
`language in self.supported_languages`. -/
def LocalizationManager.is_supported_language
    (m : LocalizationManager) (language : String) : Bool :=
  m.supported_languages.contains language

/-- `self.translations.get(language, {}).get(key)` (localization.py
line 93 and line 97). -/
def LocalizationManager.tlookup
    (m : LocalizationManager) (language key : String) : Option String :=
  dictGet2 m.translations language key

/-- Body of `get_translation` after the supported-language check has
fixed the lookup language (localization.py lines 92-111). -/
def LocalizationManager.get_translation_resolved
    (m : LocalizationManager) (key language : String)
    (kwargs : List (String × String)) : Except PyFormatError String :=
  let translation := m.tlookup language key
  let translation :=
    if translation = none ∧ language ≠ m.default_language then
      m.tlookup m.default_language key
    else translation
  match translation with
  | none => .ok key
  | some t =>
    if kwargs ≠ [] then
      match pyFormat t kwargs with
      | .ok s => .ok s
      | .error .keyError => .ok t
      | .error e => .error e
    else .ok t

/-- `get_translation` (localization.py lines 75-111).  The result is
`Except` because `translation.format(**kwargs)` can raise exceptions
other than the caught `KeyError`, which then propagate. -/
def LocalizationManager.get_translation
    (m : LocalizationManager) (key language : String)
    (kwargs : List (String × String)) : Except PyFormatError String :=
  let language :=
    if m.is_supported_language language then language else m.default_language
  m.get_translation_resolved key language kwargs

/-!
## `app/utils/i18n.py`

`SUPPORTED_LANGUAGES` is a fixed module-level dict; `DEFAULT_LANGUAGE`
is `"en"`.  `API_TRANSLATIONS` is loaded from JSON data files that are
not part of the sources, so theorems quantify over its contents.
-/

/-- The keys of `SUPPORTED_LANGUAGES` (i18n.py lines 12-18). -/
def i18n_supported_languages : List String := ["en", "es", "fr", "ar", "zh"]

/-- `DEFAULT_LANGUAGE` (i18n.py line 9). -/
def i18n_default_language : String := "en"

/-- `truthyVal o` is `o` filtered through Python string truthiness:
`some s` survives only when `s` is non-empty.  `if translation:` in the
source takes the then-branch exactly when `truthyVal translation` is
`some _`. -/
def truthyVal : Option String → Option String
  | some s => if s = "" then none else some s
  | none => none

/-- `translate_api_message` (i18n.py lines 53-72).  Note the source
tests `if translation:` — Python string truthiness — so an empty-string
translation triggers the fallback, unlike `get_translation`'s
`is None` test. -/
def translate_api_message
    (apiTranslations : List (String × List (String × String)))
    (key : String) (lang : String) : String :=
  let lang :=
    if i18n_supported_languages.contains lang then lang
    else i18n_default_language
  match truthyVal (dictGet2 apiTranslations lang key) with
  | some t => t
  | none =>
    match truthyVal (dictGet2 apiTranslations i18n_default_language key) with
    | some t => t
    | none => key

/-!
## `LocalizationMiddleware.dispatch`
(`app/middleware/localization_middleware.py` lines 22-65)

The request signals the middleware reads: `request.url.path`,
`request.query_params.get("lang")`, the `Accept-Language` header, and
the `preferred_language` cookie.
-/

structure RequestSignals where
  path : String
  queryLang : Option String
  acceptLanguage : Option String
  cookieLang : Option String
  deriving DecidableEq, Repr

/-- What `dispatch` produces: the language attached to
`request.state.language`, the possibly language-stripped path written
back into `request.scope["path"]`, and the cookie directive added to
the response (lines 62-63). -/
structure DispatchResult where
  language : String
  newPath : String
  setCookie : Option String
  deriving DecidableEq, Repr

def isLowerAlpha (c : Char) : Bool := 'a' ≤ c && c ≤ 'z'

/-- The compiled pattern `^/([a-z]{2})(?:/|$)` (middleware line 20)
applied with `re.match`: a leading slash, two lowercase ASCII letters,
then either end of string or a slash; the captured group is the two
letters. -/
def pathMatch (path : String) : Option String :=
  match path.toList with
  | '/' :: a :: b :: rest =>
    if isLowerAlpha a && isLowerAlpha b &&
        (rest = [] || rest.head? = some '/') then
      some (String.mk [a, b])
    else none
  | _ => none

/-- Split a character list at every occurrence of `sep`, keeping empty
segments — the semantics of Python `str.split(sep)` for a one-character
separator (`"".split(sep) == [""]`, `"a,,b".split(",") == ["a","","b"]`). -/
def splitOnChar (sep : Char) : List Char → List (List Char)
  | [] => [[]]
  | c :: rest =>
    let r := splitOnChar sep rest
    if c = sep then [] :: r
    else
      match r with
      | h :: t => (c :: h) :: t
      | [] => [[c]]

/-- Python `s.split(sep)` for a one-character separator. -/
def pySplit (s : String) (sep : Char) : List String :=
  (splitOnChar sep s.toList).map String.mk

/-- Python `s.lower()`, character by character (ASCII case mapping,
which covers every language tag compared here). -/
def pyLower (s : String) : String :=
  String.mk (s.toList.map Char.toLower)

/-- One item of the Accept-Language list as the middleware reduces it
(line 45): `lang_item.split(';')[0].split('-')[0].lower()`. -/
def parseAcceptItem (s : String) : String :=
  pyLower ((pySplit ((pySplit s ';').headD "") '-').headD "")

/-- `LocalizationMiddleware.dispatch`, middleware lines 22-65.  Each
`let language := ...` mirrors one reassignment of the Python local
`language`; the header block runs only under
`accept_language and not path_match and not query_lang`, and the loop
over header items `break`s at the first supported candidate
(modelled by `List.find?`). -/
def dispatch (m : LocalizationManager) (req : RequestSignals) :
    DispatchResult :=
  let language := m.default_language
  let pm := pathMatch req.path
  let st1 : String × String :=
    match pm with
    | some lc =>
      if m.is_supported_language lc then (lc, req.path.drop 3)
      else (language, req.path)
    | none => (language, req.path)
  let language := st1.1
  let newPath := st1.2
  let language :=
    match req.queryLang with
    | some q =>
      if q != "" && m.is_supported_language q then q else language
    | none => language
  let language :=
    match req.acceptLanguage with
    | some h =>
      if h != "" && pm.isNone && !optTruthy req.queryLang then
        (((pySplit h ',').map parseAcceptItem).find?
          m.is_supported_language).getD language
      else language
    | none => language
  let language :=
    match req.cookieLang with
    | some c =>
      if c != "" && m.is_supported_language c then c else language
    | none => language
  { language := language
    newPath := newPath
    setCookie := if req.cookieLang = some language then none else some language }

/-!
Specification-side restatement of the resolution order actually
implemented by `dispatch`: each signal is reduced to an optional
supported candidate, and because the source *overwrites* `language` at
each later match, the effective precedence is
cookie > query > path > header > default (the header being consulted
only when there is no path-regex match and no non-empty `lang` query
parameter).
-/

def pathCandidate (m : LocalizationManager) (req : RequestSignals) :
    Option String :=
  (pathMatch req.path).bind fun lc =>
    if m.is_supported_language lc then some lc else none

def queryCandidate (m : LocalizationManager) (req : RequestSignals) :
    Option String :=
  req.queryLang.bind fun q =>
    if q != "" && m.is_supported_language q then some q else none

def headerCandidate (m : LocalizationManager) (req : RequestSignals) :
    Option String :=
  if (pathMatch req.path).isNone && !optTruthy req.queryLang then
    req.acceptLanguage.bind fun h =>
      if h != "" then
        ((pySplit h ',').map parseAcceptItem).find? m.is_supported_language
      else none
  else none

def cookieCandidate (m : LocalizationManager) (req : RequestSignals) :
    Option String :=
  req.cookieLang.bind fun c =>
    if c != "" && m.is_supported_language c then some c else none

/-- The language `dispatch` effectively resolves: first of
cookie, query, path, header candidate; default if none. -/
def effectiveResolved (m : LocalizationManager) (req : RequestSignals) :
    String :=
  ((((cookieCandidate m req).or (queryCandidate m req)).or
      (pathCandidate m req)).or (headerCandidate m req)).getD
    m.default_language

/-!
## `format_datetime` (`app/utils/localization.py` lines 121-163)

The external collaborators are modelled as follows.

* Python `datetime`: explicit civil fields plus an optional fixed
  `tzinfo` (UTC offset in minutes and the name `%Z` prints).
* The pytz database: an association list restricted to the zones the
  development exercises, with the offsets in force at the winter
  instants appearing in the claims (Europe/Paris observes UTC+1 in
  January; DST transitions are not modelled).  An identifier is valid
  iff it is a key of this list; invalid identifiers make
  `pytz.timezone` raise `UnknownTimeZoneError`, which the source
  catches.
* `strftime`: a directive-by-directive interpreter for the directives
  the source uses (`%d %m %Y %H %M %S %Z %%`); as in CPython on glibc,
  `%Z` of a naive datetime renders as the empty string, and an unknown
  directive is kept verbatim.
* Civil-calendar arithmetic uses the standard days-from-civil /
  civil-from-days algorithms on the proleptic Gregorian calendar.
-/

structure TzInfo where
  offsetMinutes : Int
  tzname : String
  deriving DecidableEq, Repr

def pytz_utc : TzInfo := ⟨0, "UTC"⟩

def pytz_all_timezones : List (String × TzInfo) :=
  [("UTC", pytz_utc), ("Europe/Paris", ⟨60, "CET"⟩)]

structure Datetime where
  year : Int
  month : Nat
  day : Nat
  hour : Nat
  minute : Nat
  second : Nat
  tzinfo : Option TzInfo
  deriving DecidableEq, Repr

/-- Days since 1970-01-01 of a proleptic-Gregorian civil date. -/
def daysFromCivil (y : Int) (m d : Nat) : Int :=
  let y' := if m ≤ 2 then y - 1 else y
  let era := Int.fdiv y' 400
  let yoe := y' - era * 400
  let mp : Int := ((m + 9) % 12 : Nat)
  let doy : Int := (153 * mp + 2) / 5 + d - 1
  let doe : Int := yoe * 365 + yoe / 4 - yoe / 100 + doy
  era * 146097 + doe - 719468

/-- Civil date of a count of days since 1970-01-01. -/
def civilFromDays (z0 : Int) : Int × Nat × Nat :=
  let z := z0 + 719468
  let era := Int.fdiv z 146097
  let doe := z - era * 146097
  let yoe := (doe - doe / 1460 + doe / 36524 - doe / 146096) / 365
  let y := yoe + era * 400
  let doy := doe - (365 * yoe + yoe / 4 - yoe / 100)
  let mp := (5 * doy + 2) / 153
  let d := doy - (153 * mp + 2) / 5 + 1
  let m := if mp < 10 then mp + 3 else mp - 9
  (if m ≤ 2 then y + 1 else y, m.toNat, d.toNat)

/-- Wall-clock minutes since the epoch of the civil fields. -/
def toAbsMinutes (year : Int) (month day hour minute : Nat) : Int :=
  daysFromCivil year month day * 1440 + hour * 60 + minute

/-- `dt.astimezone(tz)` for an aware `dt`: shift the wall clock by the
difference of the offsets and re-split into civil fields.  The source
only ever calls it on aware datetimes (naive ones are `localize`d
first, and the fallback branch guards with `if dt.tzinfo`). -/
def Datetime.astimezone (dt : Datetime) (tz : TzInfo) : Datetime :=
  match dt.tzinfo with
  | none => dt
  | some src =>
    let wall :=
      toAbsMinutes dt.year dt.month dt.day dt.hour dt.minute
        - src.offsetMinutes + tz.offsetMinutes
    let days := Int.fdiv wall 1440
    let rem := (Int.emod wall 1440).toNat
    let c := civilFromDays days
    { year := c.1, month := c.2.1, day := c.2.2
      hour := rem / 60, minute := rem % 60, second := dt.second
      tzinfo := some tz }

/-- `pytz.utc.localize(dt)`: attach UTC to a naive datetime. -/
def pytz_utc_localize (dt : Datetime) : Datetime :=
  { dt with tzinfo := some pytz_utc }

def pad2 (n : Nat) : String := if n < 10 then "0" ++ toString n else toString n

def strftimeDirective (c : Char) (dt : Datetime) : String :=
  if c = 'd' then pad2 dt.day
  else if c = 'm' then pad2 dt.month
  else if c = 'Y' then toString dt.year
  else if c = 'H' then pad2 dt.hour
  else if c = 'M' then pad2 dt.minute
  else if c = 'S' then pad2 dt.second
  else if c = 'Z' then
    match dt.tzinfo with
    | some tz => tz.tzname
    | none => ""
  else if c = '%' then "%"
  else "%" ++ c.toString

def strftimeCore : List Char → Datetime → String
  | [], _ => ""
  | c :: rest, dt =>
    if c = '%' then
      match rest with
      | c2 :: rest2 => strftimeDirective c2 dt ++ strftimeCore rest2 dt
      | [] => "%"
    else c.toString ++ strftimeCore rest dt

def strftime (f : String) (dt : Datetime) : String :=
  strftimeCore f.toList dt

/-- The per-language default patterns of `format_datetime`
(localization.py lines 154-163). -/
def format_default (language : String) (ldt : Datetime) : String :=
  if language = "fr" then strftime "%d/%m/%Y %H:%M" ldt
  else if language = "de" then strftime "%d.%m.%Y %H:%M" ldt
  else if language = "ja" then strftime "%Y年%m月%d日 %H:%M" ldt
  else strftime "%Y-%m-%d %H:%M:%S %Z" ldt

/-- `format_datetime` (localization.py lines 121-163).  `dt = none`
models the `if dt is None: return ""` guard; `format_str = some ""`
falls through to the per-language defaults because the source tests
`if format_str:` (truthiness). -/
def format_datetime (dt : Option Datetime) (language timezone : String)
    (format_str : Option String) : String :=
  match dt with
  | none => ""
  | some dt =>
    let localized_dt :=
      match dictGet pytz_all_timezones timezone with
      | some tz =>
        let dt := if dt.tzinfo.isNone then pytz_utc_localize dt else dt
        dt.astimezone tz
      | none =>
        match dt.tzinfo with
        | some _ => dt.astimezone pytz_utc
        | none => dt
    match format_str with
    | some f =>
      if f != "" then strftime f localized_dt
      else format_default language localized_dt
    | none => format_default language localized_dt

/-!
## Preference-setting routes

`app/routers/language_routes.py` lines 25-55 and
`app/routers/user_preferences_routes.py` lines 97-137.  The user
record carries the two preference columns the routes touch; the
database round trip is modelled as updating that record (the 500
branch of `set_language_preference` covers an external database
failure and the 404 branches a missing user — both outside the
validation logic under verification).  The gettext wrapper `_` on the
messages of `set_language_preference` is modelled as the identity, as
in the route's own fallback.
-/

structure User where
  preferred_language : String
  timezone : String
  deriving DecidableEq, Repr

structure HTTPError where
  status_code : Nat
  detail : String
  deriving DecidableEq, Repr

/-- `set_language_preference` (language_routes.py lines 25-55): the
supported check uses `app.utils.i18n.is_supported_language`, i.e. the
static `SUPPORTED_LANGUAGES` keys. -/
def set_language_preference (language_code : String) (user : User) :
    Except HTTPError (User × String) :=
  if !i18n_supported_languages.contains language_code then
    .error ⟨400, "Unsupported language"⟩
  else
    .ok ({ user with preferred_language := language_code },
      "Language preference updated successfully")

/-- `update_language_preference` (user_preferences_routes.py lines
97-137): the supported check uses the manager's
`is_supported_language`; on success the user row and the
`preferred_language` cookie are updated and the success message is
looked up in the new language (never an error: no parameters are
passed to `get_translation`). -/
def update_language_preference (m : LocalizationManager)
    (language : String) (user : User) :
    Except HTTPError (User × String) :=
  if !m.is_supported_language language then
    .error ⟨400, "Language \x27" ++ language ++ "\x27 is not supported"⟩
  else
    let msg :=
      match m.get_translation "language_switch_success" language [] with
      | .ok s => s
      | .error _ => "language_switch_success"
    .ok ({ user with preferred_language := language }, msg)

/-!
## Sample data for concrete instances

`sampleManager` is a manager in the deployed shape: default `"en"`,
the five statically declared languages, and some loaded tables.
`formatManager` carries templates exercising the substitution paths.
-/

def sampleManager : LocalizationManager :=
  ⟨"en", ["en", "es", "fr", "ar", "zh"],
    [("en", [("greeting", "Hello!")]), ("fr", [("greeting", "Bonjour!")])]⟩

def formatManager : LocalizationManager :=
  ⟨"en", ["en"],
    [("en", [("k", "x \x7b\x7d y"), ("k2", "Hi \x7bname\x7d")])]⟩

/-- A manager whose table stores an empty string under key `ke`. -/
def emptyValueManager : LocalizationManager :=
  ⟨"en", ["en"], [("en", [("ke", "")])]⟩

/-- The naive timestamp `2024-01-15T10:00:00` of the spec's examples. -/
def dt_jan15 : Datetime := ⟨2024, 1, 15, 10, 0, 0, none⟩

/-!
## Helper lemmas shared by the middleware theorems
-/

theorem dispatch_language_eq (m : LocalizationManager) (req : RequestSignals) :
    (dispatch m req).language = effectiveResolved m req := by
  obtain ⟨path, ql, al, cl⟩ := req
  unfold dispatch effectiveResolved pathCandidate queryCandidate
    headerCandidate cookieCandidate
  cases hp : pathMatch path <;> cases ql <;> cases al <;> cases cl <;>
    simp [hp, optTruthy, Option.or] <;> split_ifs <;> simp_all

theorem pathCandidate_supported {m : LocalizationManager}
    {req : RequestSignals} {c : String} (h : pathCandidate m req = some c) :
    m.is_supported_language c = true := by
  unfold pathCandidate at h
  cases hp : pathMatch req.path <;> rw [hp] at h <;> simp at h
  obtain ⟨h1, rfl⟩ := h
  exact h1

theorem queryCandidate_supported {m : LocalizationManager}
    {req : RequestSignals} {c : String} (h : queryCandidate m req = some c) :
    m.is_supported_language c = true := by
  unfold queryCandidate at h
  cases hq : req.queryLang <;> rw [hq] at h <;> simp at h
  obtain ⟨⟨-, h1⟩, rfl⟩ := h
  exact h1

theorem headerCandidate_supported {m : LocalizationManager}
    {req : RequestSignals} {c : String} (h : headerCandidate m req = some c) :
    m.is_supported_language c = true := by
  unfold headerCandidate at h
  split_ifs at h
  simp_all
  cases ha : req.acceptLanguage <;> rw [ha] at h <;> simp at h
  obtain ⟨-, a, hfind, rfl⟩ := h
  simpa using List.find?_some hfind

theorem cookieCandidate_supported {m : LocalizationManager}
    {req : RequestSignals} {c : String} (h : cookieCandidate m req = some c) :
    m.is_supported_language c = true := by
  unfold cookieCandidate at h
  cases hc : req.cookieLang <;> rw [hc] at h <;> simp at h
  obtain ⟨⟨-, h1⟩, rfl⟩ := h
  exact h1

/-!
## Claim theorems
-/

/-- C1, counterexample: the claim's precedence fails on the code.  For
the request with supported path prefix `/fr/...` and supported query
parameter `lang=es` (no other signal), the middleware resolves `es`,
not `fr` — the query check runs after the path check and overwrites its
result. -/
theorem c1_path_beats_query_counterexample :
    (dispatch sampleManager ⟨"/fr/users", some "es", none, none⟩).language
      ≠ "fr" ∧
    (dispatch sampleManager ⟨"/fr/users", some "es", none, none⟩).language
      = "es" := by
  decide

/-- C1, amended: `dispatch` inspects path prefix, query parameter,
Accept-Language header (the header only when the path regex did not
match and no non-empty `lang` query parameter is present) and cookie in
that order, each later supported signal overwriting the earlier ones,
with the configured default as fallback — so the effective precedence
is cookie > query > path > header > default (`effectiveResolved`).  In
particular a request with supported path prefix `/fr/...` and supported
query `lang=es` resolves `es` (query beats path), and a request with no
signals at all resolves the configured default. -/
theorem c1_resolution_precedence_amended :
    (∀ (m : LocalizationManager) (req : RequestSignals),
      (dispatch m req).language = effectiveResolved m req) ∧
    (dispatch sampleManager ⟨"/fr/users", some "es", none, none⟩).language
      = "es" ∧
    (∀ m : LocalizationManager,
      (dispatch m ⟨"/", none, none, none⟩).language = m.default_language) := by
  refine ⟨dispatch_language_eq, by decide, fun m => ?_⟩
  unfold dispatch
  simp [pathMatch, optTruthy]

/-- C2: when the Accept-Language header is the only signal (no path
regex match, no query parameter, no cookie), the resolved language is
the first candidate in header list order — each item reduced to its
primary subtag, lowercased — that is supported, and the default
otherwise; `q` weights play no role.  Concretely,
`fr;q=0.5,en;q=0.9` resolves `fr` although `en` has the higher
weight. -/
theorem c2_header_first_match_in_order (m : LocalizationManager)
    (path h : String) (hp : pathMatch path = none) (hh : h ≠ "") :
    (dispatch m ⟨path, none, some h, none⟩).language
      = (((pySplit h ',').map parseAcceptItem).find?
          m.is_supported_language).getD m.default_language ∧
    (dispatch sampleManager
        ⟨"/", none, some "fr;q=0.5,en;q=0.9", none⟩).language = "fr" := by
  constructor
  · unfold dispatch
    simp [hp, optTruthy, hh]
  · decide

/-- Witness for C2 at the header `de-DE;q=0.8,fr;q=0.5,en;q=0.9`
(first item `de-DE` reduces to the unsupported `de`, so the second
item `fr` wins). -/
theorem c2_header_first_match_in_order_witness :
    pathMatch "/" = none ∧
    ("de-DE;q=0.8,fr;q=0.5,en;q=0.9" : String) ≠ "" ∧
    ((dispatch sampleManager
        ⟨"/", none, some "de-DE;q=0.8,fr;q=0.5,en;q=0.9", none⟩).language
      = (((pySplit "de-DE;q=0.8,fr;q=0.5,en;q=0.9" ',').map
            parseAcceptItem).find?
          sampleManager.is_supported_language).getD
        sampleManager.default_language ∧
    (dispatch sampleManager
        ⟨"/", none, some "fr;q=0.5,en;q=0.9", none⟩).language = "fr") :=
  ⟨by decide, by decide,
    c2_header_first_match_in_order sampleManager "/"
      "de-DE;q=0.8,fr;q=0.5,en;q=0.9" (by decide) (by decide)⟩

/-- C3: for an unsupported language code `U`, both translation lookups
behave exactly as with the default language substituted for `U`, for
every key, parameter map and table. -/
theorem c3_unsupported_behaves_as_default (m : LocalizationManager)
    (key U : String) (kwargs : List (String × String))
    (tables : List (String × List (String × String))) :
    (m.is_supported_language U = false →
      m.get_translation key U kwargs
        = m.get_translation key m.default_language kwargs) ∧
    (i18n_supported_languages.contains U = false →
      translate_api_message tables key U
        = translate_api_message tables key i18n_default_language) := by
  constructor
  · intro h
    unfold LocalizationManager.get_translation
    simp [h, ite_self]
  · intro h
    have h' : U ∉ i18n_supported_languages := by simpa using h
    unfold translate_api_message
    simp [h', ite_self]

/-- Witness for C3 at the unsupported code `xx`. -/
theorem c3_unsupported_behaves_as_default_witness :
    (sampleManager.is_supported_language "xx" = false ∧
      sampleManager.get_translation "greeting" "xx" []
        = sampleManager.get_translation "greeting"
            sampleManager.default_language []) ∧
    (i18n_supported_languages.contains "xx" = false ∧
      translate_api_message [("en", [("greeting", "Hello")])] "greeting" "xx"
        = translate_api_message [("en", [("greeting", "Hello")])] "greeting"
            i18n_default_language) :=
  ⟨⟨by decide,
    (c3_unsupported_behaves_as_default sampleManager "greeting" "xx" []
      [("en", [("greeting", "Hello")])]).1 (by decide)⟩,
  ⟨by decide,
    (c3_unsupported_behaves_as_default sampleManager "greeting" "xx" []
      [("en", [("greeting", "Hello")])]).2 (by decide)⟩⟩

/-- C4, counterexample: `translate_api_message` does not return the
stored value when that value is the empty string — `if translation:`
uses Python truthiness, so `""` falls through to the fallback and the
call returns the key `"k"`, not the stored `""`. -/
theorem c4_empty_stored_value_counterexample :
    i18n_supported_languages.contains "fr" = true ∧
    dictGet2 [("fr", [("k", "")])] "fr" "k" = some "" ∧
    translate_api_message [("fr", [("k", "")])] "k" "fr" ≠ "" ∧
    translate_api_message [("fr", [("k", "")])] "k" "fr" = "k" := by
  decide

/-- C4, amended: for a supported language `L` and a key present in
`L`'s table with stored value `v`, `get_translation` with no
parameters returns exactly `v`, unsubstituted — including `v = ""`;
`translate_api_message` returns exactly `v` provided `v` is non-empty
(an empty stored string instead triggers the fallback, by the
counterexample). -/
theorem c4_supported_hit_returns_stored_value (m : LocalizationManager)
    (tables : List (String × List (String × String))) (L key v : String) :
    (m.is_supported_language L = true → m.tlookup L key = some v →
      m.get_translation key L [] = .ok v) ∧
    (i18n_supported_languages.contains L = true →
      dictGet2 tables L key = some v → v ≠ "" →
      translate_api_message tables key L = v) := by
  constructor
  · intro h1 h2
    unfold LocalizationManager.get_translation
      LocalizationManager.get_translation_resolved
    simp [h1, h2]
  · intro h3 h4 h5
    have h3' : L ∈ i18n_supported_languages := by simpa using h3
    unfold translate_api_message
    simp [h3', h4, truthyVal, h5]

/-- Witness for C4 (amended): the `get_translation` conjunct is
exercised at the stored *empty* value of `emptyValueManager`'s key
`ke` (returned as `.ok ""`), the `translate_api_message` conjunct at
the non-empty stored value `"Bonjour!"`. -/
theorem c4_supported_hit_returns_stored_value_witness :
    (emptyValueManager.is_supported_language "en" = true ∧
      emptyValueManager.tlookup "en" "ke" = some "" ∧
      emptyValueManager.get_translation "ke" "en" [] = .ok "") ∧
    (i18n_supported_languages.contains "fr" = true ∧
      dictGet2 [("fr", [("greeting", "Bonjour!")])] "fr" "greeting"
        = some "Bonjour!" ∧
      ("Bonjour!" : String) ≠ "" ∧
      translate_api_message [("fr", [("greeting", "Bonjour!")])] "greeting" "fr"
        = "Bonjour!") :=
  ⟨⟨by decide, by decide,
    (c4_supported_hit_returns_stored_value emptyValueManager [] "en" "ke" "").1
      (by decide) (by decide)⟩,
  ⟨by decide, by decide, by decide,
    (c4_supported_hit_returns_stored_value sampleManager
      [("fr", [("greeting", "Bonjour!")])] "fr" "greeting" "Bonjour!").2
      (by decide) (by decide) (by decide)⟩⟩

/-- C5: a key absent from the requested language's table and from the
default language's table is returned verbatim by both lookups, for any
language (supported or not) and any parameter map; the result is an
ordinary value, never an exception. -/
theorem c5_missing_key_returned_verbatim (m : LocalizationManager)
    (tables : List (String × List (String × String))) (L key : String)
    (kwargs : List (String × String))
    (h1 : m.tlookup L key = none)
    (h2 : m.tlookup m.default_language key = none)
    (h3 : dictGet2 tables L key = none)
    (h4 : dictGet2 tables i18n_default_language key = none) :
    m.get_translation key L kwargs = .ok key ∧
    translate_api_message tables key L = key := by
  constructor
  · unfold LocalizationManager.get_translation
      LocalizationManager.get_translation_resolved
    by_cases hs : m.is_supported_language L <;> simp [hs, h1, h2]
  · unfold translate_api_message
    by_cases hs : L ∈ i18n_supported_languages <;>
      simp [hs, h3, h4, truthyVal]

/-- Witness for C5 at the absent key `missing_key`. -/
theorem c5_missing_key_returned_verbatim_witness :
    sampleManager.tlookup "fr" "missing_key" = none ∧
    sampleManager.tlookup sampleManager.default_language "missing_key"
      = none ∧
    dictGet2 [("en", [("greeting", "Hello")])] "fr" "missing_key" = none ∧
    dictGet2 [("en", [("greeting", "Hello")])] i18n_default_language
      "missing_key" = none ∧
    (sampleManager.get_translation "missing_key" "fr" [("name", "x")]
      = .ok "missing_key" ∧
    translate_api_message [("en", [("greeting", "Hello")])] "missing_key" "fr"
      = "missing_key") :=
  ⟨by decide, by decide, by decide, by decide,
    c5_missing_key_returned_verbatim sampleManager
      [("en", [("greeting", "Hello")])] "fr" "missing_key" [("name", "x")]
      (by decide) (by decide) (by decide) (by decide)⟩

/-- C6, counterexample: substitution failure does not always yield the
unsubstituted template.  The template of key `k` holds an automatic
positional placeholder; formatting it with keyword parameters raises
`IndexError`, which the source's `except KeyError` does not catch, so
`get_translation` propagates the exception instead of returning the
template. -/
theorem c6_positional_placeholder_counterexample :
    formatManager.tlookup "en" "k" = some "x \x7b\x7d y" ∧
    formatManager.get_translation "k" "en" [("a", "b")]
      = .error PyFormatError.indexError :=
  ⟨rfl, rfl⟩

/-- C6, amended: if substitution of a non-empty parameter map into the
resolved template fails because a referenced named parameter is absent
(`KeyError`), `get_translation` returns the unsubstituted template
rather than raising; substitution failures of other kinds (positional
placeholders, malformed templates) are not caught and propagate, by
the counterexample. -/
theorem c6_missing_named_param_returns_template (m : LocalizationManager)
    (L key t : String) (kwargs : List (String × String))
    (h1 : m.is_supported_language L = true)
    (h2 : m.tlookup L key = some t)
    (h3 : kwargs ≠ [])
    (h4 : pyFormat t kwargs = .error .keyError) :
    m.get_translation key L kwargs = .ok t := by
  unfold LocalizationManager.get_translation
    LocalizationManager.get_translation_resolved
  simp [h1, h2, h3, h4]

/-- Witness for C6 (amended): template `Hi \x7bname\x7d` formatted with a
parameter map lacking `name`. -/
theorem c6_missing_named_param_returns_template_witness :
    formatManager.is_supported_language "en" = true ∧
    formatManager.tlookup "en" "k2" = some "Hi \x7bname\x7d" ∧
    ([("other", "1")] : List (String × String)) ≠ [] ∧
    pyFormat "Hi \x7bname\x7d" [("other", "1")]
      = .error PyFormatError.keyError ∧
    formatManager.get_translation "k2" "en" [("other", "1")]
      = .ok "Hi \x7bname\x7d" :=
  ⟨by decide, rfl, by decide, rfl,
    c6_missing_named_param_returns_template formatManager "en" "k2"
      "Hi \x7bname\x7d" [("other", "1")] (by decide) rfl (by decide) rfl⟩

/-- C7: `format_datetime` treats a zoneless timestamp as UTC — for any
valid timezone, formatting a naive datetime is the same as formatting
that datetime with UTC attached — and the naive timestamp
`2024-01-15T10:00:00` at `Europe/Paris` under language `fr` with no
explicit format yields exactly `15/01/2024 11:00` (UTC+1 in January,
French day/month/year pattern). -/
theorem c7_format_datetime_naive_utc (dt : Datetime)
    (language tzStr : String) (fmt : Option String) (tz : TzInfo)
    (h1 : dt.tzinfo = none)
    (h2 : dictGet pytz_all_timezones tzStr = some tz) :
    format_datetime (some dt) language tzStr fmt
      = format_datetime (some { dt with tzinfo := some pytz_utc })
          language tzStr fmt ∧
    format_datetime (some dt_jan15) "fr" "Europe/Paris" none
      = "15/01/2024 11:00" := by
  constructor
  · unfold format_datetime
    rw [h2]
    simp [h1, pytz_utc_localize]
  · rfl

/-- Witness for C7 at the spec's example instant and zone. -/
theorem c7_format_datetime_naive_utc_witness :
    dt_jan15.tzinfo = none ∧
    dictGet pytz_all_timezones "Europe/Paris" = some ⟨60, "CET"⟩ ∧
    (format_datetime (some dt_jan15) "fr" "Europe/Paris" none
      = format_datetime (some { dt_jan15 with tzinfo := some pytz_utc })
          "fr" "Europe/Paris" none ∧
    format_datetime (some dt_jan15) "fr" "Europe/Paris" none
      = "15/01/2024 11:00") :=
  ⟨rfl, rfl,
    c7_format_datetime_naive_utc dt_jan15 "fr" "Europe/Paris" none
      ⟨60, "CET"⟩ rfl rfl⟩

/-- C8, counterexample: for a *naive* datetime, the invalid-timezone
fallback does not produce the UTC string: the fallback leaves the
datetime zoneless, so the default pattern's `%Z` renders empty where
the UTC path prints `UTC`. -/
theorem c8_invalid_timezone_naive_counterexample :
    dictGet pytz_all_timezones "Mars/Olympus" = none ∧
    format_datetime (some dt_jan15) "en" "Mars/Olympus" none
      = "2024-01-15 10:00:00 " ∧
    format_datetime (some dt_jan15) "en" "UTC" none
      = "2024-01-15 10:00:00 UTC" ∧
    format_datetime (some dt_jan15) "en" "Mars/Olympus" none
      ≠ format_datetime (some dt_jan15) "en" "UTC" none := by
  refine ⟨rfl, rfl, rfl, ?_⟩
  decide

/-- C8, amended: `format_datetime` with a timezone string that is not
a valid identifier never raises (the model is a total function: the
source catches `UnknownTimeZoneError`), and for every datetime that
carries zone information it produces exactly the string produced for
`"UTC"`; for a zoneless datetime the fallback skips conversion and
zone attachment, so the result can differ from the UTC string in the
rendered zone abbreviation, by the counterexample. -/
theorem c8_invalid_timezone_falls_back_to_utc (dt : Datetime)
    (tz : TzInfo) (language tzStr : String) (fmt : Option String)
    (h1 : dictGet pytz_all_timezones tzStr = none)
    (h2 : dt.tzinfo = some tz) :
    format_datetime (some dt) language tzStr fmt
      = format_datetime (some dt) language "UTC" fmt := by
  unfold format_datetime
  rw [h1]
  have hutc : dictGet pytz_all_timezones "UTC" = some pytz_utc := rfl
  rw [hutc]
  simp [h2]

/-- Witness for C8 (amended) at an aware datetime and the invalid
identifier `Mars/Olympus`. -/
theorem c8_invalid_timezone_falls_back_to_utc_witness :
    dictGet pytz_all_timezones "Mars/Olympus" = none ∧
    (Datetime.mk 2024 1 15 10 0 0 (some ⟨60, "CET"⟩)).tzinfo
      = some ⟨60, "CET"⟩ ∧
    format_datetime (some (Datetime.mk 2024 1 15 10 0 0 (some ⟨60, "CET"⟩)))
        "en" "Mars/Olympus" none
      = format_datetime (some (Datetime.mk 2024 1 15 10 0 0 (some ⟨60, "CET"⟩)))
          "en" "UTC" none :=
  ⟨rfl, rfl,
    c8_invalid_timezone_falls_back_to_utc
      (Datetime.mk 2024 1 15 10 0 0 (some ⟨60, "CET"⟩)) ⟨60, "CET"⟩
      "en" "Mars/Olympus" none rfl rfl⟩

/-- C9: both preference-setting endpoints reject a language code
outside their supported set with a 400 error carrying a descriptive
detail; the result is the error itself — no success value, hence no
coerced language and no change to the stored user record (the model
only updates the record inside the `.ok` branch). -/
theorem c9_unsupported_preference_rejected (code : String) (user : User)
    (m : LocalizationManager)
    (h1 : i18n_supported_languages.contains code = false)
    (h2 : m.is_supported_language code = false) :
    set_language_preference code user
      = .error ⟨400, "Unsupported language"⟩ ∧
    update_language_preference m code user
      = .error ⟨400, "Language \x27" ++ code ++ "\x27 is not supported"⟩ := by
  have h1' : code ∉ i18n_supported_languages := by simpa using h1
  constructor <;>
    simp [set_language_preference, update_language_preference, h1', h2]

/-- Witness for C9 at the unsupported code `xx`. -/
theorem c9_unsupported_preference_rejected_witness :
    i18n_supported_languages.contains "xx" = false ∧
    sampleManager.is_supported_language "xx" = false ∧
    (set_language_preference "xx" ⟨"en", "UTC"⟩
      = .error ⟨400, "Unsupported language"⟩ ∧
    update_language_preference sampleManager "xx" ⟨"en", "UTC"⟩
      = .error ⟨400, "Language \x27" ++ "xx" ++ "\x27 is not supported"⟩) :=
  ⟨by decide, by decide,
    c9_unsupported_preference_rejected "xx" ⟨"en", "UTC"⟩ sampleManager
      (by decide) (by decide)⟩

/-- C10: whatever the request signals — any path, query parameter,
Accept-Language header and cookie — the language `dispatch` attaches
to the request is a member of the manager's supported set, provided
the configured default language is itself supported (as it is in the
deployed construction, where `supported_languages` starts from
`["en"]` with default `"en"`). -/
theorem c10_dispatch_language_always_supported (m : LocalizationManager)
    (req : RequestSignals)
    (hd : m.is_supported_language m.default_language = true) :
    m.is_supported_language (dispatch m req).language = true := by
  rw [dispatch_language_eq]
  unfold effectiveResolved
  cases h1 : cookieCandidate m req with
  | some c => simp [Option.or, h1, cookieCandidate_supported h1]
  | none =>
    cases h2 : queryCandidate m req with
    | some c => simp [Option.or, h1, h2, queryCandidate_supported h2]
    | none =>
      cases h3 : pathCandidate m req with
      | some c => simp [Option.or, h1, h2, h3, pathCandidate_supported h3]
      | none =>
        cases h4 : headerCandidate m req with
        | some c =>
          simp [Option.or, h1, h2, h3, h4, headerCandidate_supported h4]
        | none => simp [Option.or, h1, h2, h3, h4, hd]

/-- Witness for C10 at a request whose every signal is unsupported. -/
theorem c10_dispatch_language_always_supported_witness :
    sampleManager.is_supported_language sampleManager.default_language
      = true ∧
    sampleManager.is_supported_language
      (dispatch sampleManager
        ⟨"/de/users", some "zz", some "de,ja", some "xx"⟩).language = true :=
  ⟨by decide,
    c10_dispatch_language_always_supported sampleManager
      ⟨"/de/users", some "zz", some "de,ja", some "xx"⟩ (by decide)⟩

end UserMgmt
